import Mathlib

/-!
Verification development for the floating-note AR repository.

The repository's own code (src/script.js, src/unnamed/part_000,
src/unnamed/part_001) is glue: click/touch handlers that raycast against a
list of floating objects and show an info card or tooltip on a hit.  Those
handlers are embedded directly below (`onCanvasClick`, `showTooltip`).

The spec additionally describes, at design level, a floating-note store
("Annotation Store & Picker") with persist / restore / pickOrCreate
operations; no such code exists under src/, so those operations are
modelled from the spec's words and marked as such in their doc comments.

Conventions of the embedding:
  - JS numbers are modelled as `Rat` (finite values only, which is what the
    spec quantifies over).
  - Renderer geometry is external to the component; a tap's ray is modelled
    by the intersection oracle `dist : Nat → Option Rat` giving, for each
    visual handle, the intersection distance if the ray hits it.  The
    Renderer contract returns hits ordered nearest first, modelled by an
    insertion sort on the distance.
  - The platform JSON codec is external; a stored string is represented by
    its parse outcome (`StoreVal`): a well-formed JSON document, the empty
    string, or a non-empty unparsable string.
-/

/-- JSON values, the semantic content of a well-formed JSON document. -/
inductive Json where
  | jnull
  | jbool (b : Bool)
  | jnum (q : Rat)
  | jstr (s : String)
  | jarr (xs : List Json)
  | jobj (fields : List (String × Json))

/-- Value stored under a key of the Persistent Key-Value Store, represented
by its parse outcome: a well-formed JSON document with semantic value `j`,
the empty string, or a non-empty string the JSON parser rejects. -/
inductive StoreVal where
  | jsonVal (j : Json)
  | emptyString
  | badString

/-- Modelled from the spec: the platform JSON parser applied to a stored
string; the empty string and malformed text both fail to parse. -/
def parseStoreVal : StoreVal → Option Json
  | .jsonVal j => some j
  | .emptyString => none
  | .badString => none

/-- String-keyed store: lookup of the most recent value written for a key. -/
def storeGet (st : List (String × StoreVal)) (k : String) : Option StoreVal :=
  match st with
  | [] => none
  | (k', v) :: rest => if k' = k then some v else storeGet rest k

/-- String-keyed store: write a value for a key (newest entry wins). -/
def storeSet (st : List (String × StoreVal)) (k : String) (v : StoreVal) :
    List (String × StoreVal) :=
  (k, v) :: st

/-- Fixed Persistent Store key for the persisted note list. -/
def arNotesKey : String := "arNotes"

/-- Persisted record shape: text, x, y, z, date. -/
structure NoteRec where
  text : String
  x : Rat
  y : Rat
  z : Rat
  date : String
deriving DecidableEq, Repr

/-- Modelled from the spec: serialization of one persisted record as a JSON
object with exactly the fields text, x, y, z, date. -/
def encodeNote (r : NoteRec) : Json :=
  .jobj [("text", .jstr r.text), ("x", .jnum r.x), ("y", .jnum r.y),
         ("z", .jnum r.z), ("date", .jstr r.date)]

/-- Modelled from the spec: the persisted state layout, a JSON array of
record objects. -/
def encodeNotes (rs : List NoteRec) : Json :=
  .jarr (rs.map encodeNote)

/-- First value bound to key `k` in a JSON object's field list. -/
def getField (fields : List (String × Json)) (k : String) : Option Json :=
  match fields with
  | [] => none
  | (k', v) :: rest => if k' = k then some v else getField rest k

/-- Read a JSON value as a string. -/
def asStr : Json → Option String
  | .jstr s => some s
  | _ => none

/-- Read a JSON value as a number. -/
def asNum : Json → Option Rat
  | .jnum q => some q
  | _ => none

/-- Modelled from the spec: decoding of one persisted record; any missing or
wrongly-typed field rejects the record. -/
def decodeNote : Json → Option NoteRec
  | .jobj fs => do
      let t ← getField fs "text" >>= asStr
      let x ← getField fs "x" >>= asNum
      let y ← getField fs "y" >>= asNum
      let z ← getField fs "z" >>= asNum
      let d ← getField fs "date" >>= asStr
      pure { text := t, x := x, y := y, z := z, date := d }
  | _ => none

/-- Decode a list of JSON values as persisted records; any bad element
rejects the whole list. -/
def decodeNoteList : List Json → Option (List NoteRec)
  | [] => some []
  | j :: js => do
      let r ← decodeNote j
      let rs ← decodeNoteList js
      pure (r :: rs)

/-- Modelled from the spec: decoding of the persisted state layout. -/
def decodeNotes : Json → Option (List NoteRec)
  | .jarr xs => decodeNoteList xs
  | _ => none

/-- Stated from the spec's layout words, for comparison with what `persistW`
writes: a record object has exactly the fields text (string), x (number),
y (number), z (number), date (string) — in particular no id and no
visualHandle field. -/
def noteShape (j : Json) : Bool :=
  match j with
  | .jobj [("text", .jstr _), ("x", .jnum _), ("y", .jnum _),
           ("z", .jnum _), ("date", .jstr _)] => true
  | _ => false

/-- Stated from the spec's layout words: the persisted document is a JSON
array all of whose elements are record objects. -/
def notesArrayShape : Json → Bool
  | .jarr xs => xs.all noteShape
  | _ => false

/-- In-memory floating note: id, text, position, creation date, and the
opaque Renderer-side visual handle. -/
structure Note where
  id : Nat
  text : String
  x : Rat
  y : Rat
  z : Rat
  createdAt : String
  visualHandle : Nat
deriving DecidableEq, Repr

/-- Projection of an in-memory note to its persisted record (id and
visualHandle are dropped). -/
def noteToRec (n : Note) : NoteRec :=
  { text := n.text, x := n.x, y := n.y, z := n.z, date := n.createdAt }

/-- World state of the store component together with its collaborators: the
in-memory note list, fresh-id and fresh-handle counters, the running count
of createVisual requests made to the Renderer, the Persistent Store
contents, the current timestamp, and whether a storage write would fail
(quota exceeded). -/
structure World where
  notes : List Note
  nextId : Nat
  nextHandle : Nat
  createVisualCount : Nat
  store : List (String × StoreVal)
  now : String
  writeFails : Bool

/-- Outcome of a persistence write: success, or a non-fatal warning. -/
inductive PersistOutcome where
  | ok
  | warned
deriving DecidableEq, Repr

/-- Modelled from the spec: `persist` serializes the full current in-memory
set (excluding visualHandle and id) under the fixed key; a failing write
(quota) leaves the store untouched and reports a warning. -/
def persistW (w : World) : World × PersistOutcome :=
  if w.writeFails then (w, .warned)
  else
    ({ w with
        store := storeSet w.store arNotesKey
          (.jsonVal (encodeNotes (w.notes.map noteToRec))) }, .ok)

/-- Records read back from the Persistent Store: missing key, unparsable
text, or an undecodable document all degrade to the empty list. -/
def readStoredRecs (st : List (String × StoreVal)) : List NoteRec :=
  match storeGet st arNotesKey with
  | none => []
  | some sv =>
    match parseStoreVal sv with
    | none => []
    | some j =>
      match decodeNotes j with
      | none => []
      | some rs => rs

/-- Build in-memory notes from persisted records in order, assigning fresh
ids and requesting one visual handle per record. -/
def buildNotes (nid nh : Nat) : List NoteRec → List Note
  | [] => []
  | r :: rs =>
      { id := nid, text := r.text, x := r.x, y := r.y, z := r.z,
        createdAt := r.date, visualHandle := nh } :: buildNotes (nid + 1) (nh + 1) rs

/-- Modelled from the spec: `restore` reads the persisted list under the
fixed key (degrading to the empty list on missing or unparsable data),
constructs one note per record in persisted order with a freshly assigned
id and a newly requested visual handle, and returns the full in-memory
set. -/
def restoreW (w : World) : World × List Note :=
  let rs := readStoredRecs w.store
  let ns := buildNotes w.nextId w.nextHandle rs
  ({ w with
      notes := ns,
      nextId := w.nextId + rs.length,
      nextHandle := w.nextHandle + rs.length,
      createVisualCount := w.createVisualCount + rs.length }, ns)

/-- Insert a keyed pair into a list sorted by ascending distance. -/
def insertByDist {α : Type} (p : α × Rat) : List (α × Rat) → List (α × Rat)
  | [] => [p]
  | q :: qs => if p.2 ≤ q.2 then p :: q :: qs else q :: insertByDist p qs

/-- Sort intersection results by ascending distance, nearest first, as the
Renderer's intersection routine returns them. -/
def sortByDist {α : Type} : List (α × Rat) → List (α × Rat)
  | [] => []
  | p :: ps => insertByDist p (sortByDist ps)

/-- Modelled from the spec: the Renderer's `intersect` over the store's
live visual handles, mapped back to their notes; `dist` is the
Renderer-computed intersection distance of the tap's ray with a given
handle, and the result is ordered nearest first. -/
def intersectNotes (dist : Nat → Option Rat) (ns : List Note) : List (Note × Rat) :=
  sortByDist (ns.filterMap (fun n => Option.map (fun d => (n, d)) (dist n.visualHandle)))

/-- Result of a pick-or-create tap resolution. -/
inductive PickResult where
  | Hit (n : Note)
  | Created (n : Note)
  | Cancelled
deriving DecidableEq, Repr

/-- Modelled from the spec: the configurable spread factor scaling the
normalized pointer coordinates of a miss placement. -/
def spreadFactor : Rat := 2

/-- Modelled from the spec: the fixed anchor depth, a constant negative
z-offset from the camera, at which a missed tap places a new note. -/
def anchorDepth : Rat := -2

/-- Modelled from the spec: `pickOrCreate`.  The tap's ray is tested
against all live handles; on a hit the nearest note is returned with no
mutation.  On a miss with resolved text: empty or null text cancels with no
mutation; non-empty text appends a fresh note at the computed position,
requests one visual handle, persists the full updated set, and returns it
as Created together with the persistence outcome. -/
def pickOrCreate (w : World) (dist : Nat → Option Rat) (nx ny : Rat)
    (resolvedText : Option String) : World × PickResult × PersistOutcome :=
  match intersectNotes dist w.notes with
  | (n, _) :: _ => (w, .Hit n, .ok)
  | [] =>
    match resolvedText with
    | none => (w, .Cancelled, .ok)
    | some t =>
      if t = "" then (w, .Cancelled, .ok)
      else
        let newNote : Note :=
          { id := w.nextId, text := t, x := nx * spreadFactor,
            y := ny * spreadFactor, z := anchorDepth, createdAt := w.now,
            visualHandle := w.nextHandle }
        let w1 : World :=
          { w with
              notes := w.notes ++ [newNote],
              nextId := w.nextId + 1,
              nextHandle := w.nextHandle + 1,
              createVisualCount := w.createVisualCount + 1 }
        let res := persistW w1
        (res.1, .Created newNote, res.2)

/-- Modelled from the spec: the tap-handling data flow around the picker; on
a hit the Presentation shows the note's text, otherwise nothing is shown.
The last component lists the texts displayed via the Presentation. -/
def handleTap (w : World) (dist : Nat → Option Rat) (nx ny : Rat)
    (resolvedText : Option String) :
    World × PickResult × PersistOutcome × List String :=
  let r := pickOrCreate w dist nx ny resolvedText
  match r.2.1 with
  | .Hit n => (r.1, r.2.1, r.2.2, [n.text])
  | pr => (r.1, pr, r.2.2, [])

/-- Floating object of the source's scene list: an opaque mesh identity and
the info text attached to it. -/
structure FloatingObject where
  mesh : Nat
  info : String
deriving DecidableEq, Repr

/-- Browser-page state visible to the click handler: the floating-object
list and the page's durable storage. -/
structure PageState where
  floatingObjects : List FloatingObject
  durableStore : List (String × StoreVal)

/-- User-visible effect of the click handler. -/
inductive ClickEffect where
  | showInfo (text : String)
deriving DecidableEq, Repr

/-- Embedding of `onCanvasClick` (src/unnamed/part_000 and part_001): the
click is raycast against the meshes of the floating objects; if the
nearest-first intersection list is non-empty, the object owning the nearest
mesh is looked up and its info is shown on the info card; the handler never
changes the page state. -/
def onCanvasClick (st : PageState) (dist : Nat → Option Rat) :
    PageState × List ClickEffect :=
  match sortByDist (st.floatingObjects.filterMap
      (fun o => Option.map (fun d => (o.mesh, d)) (dist o.mesh))) with
  | [] => (st, [])
  | (m, _) :: _ =>
    match st.floatingObjects.find? (fun o => o.mesh == m) with
    | some sel => (st, [.showInfo sel.info])
    | none => (st, [])

/-- Tooltip-layer state of src/script.js: the map from scene object ids to
tooltip DOM element ids, the next fresh DOM element id, and the running
count of created tooltip elements. -/
structure TooltipState where
  tooltips : List (Nat × Nat)
  nextElem : Nat
  created : Nat
deriving DecidableEq, Repr

/-- Lookup in the tooltips map. -/
def tipGet (m : List (Nat × Nat)) (k : Nat) : Option Nat :=
  match m with
  | [] => none
  | (k', v) :: rest => if k' = k then some v else tipGet rest k

/-- Embedding of `showTooltip` (src/script.js): if a tooltip element is
already registered for the object's id it is reused, otherwise a fresh DOM
element is created and registered under that id.  Returns the element shown. -/
def showTooltip (st : TooltipState) (objId : Nat) : TooltipState × Nat :=
  match tipGet st.tooltips objId with
  | some el => (st, el)
  | none =>
    ({ tooltips := st.tooltips ++ [(objId, st.nextElem)],
       nextElem := st.nextElem + 1,
       created := st.created + 1 }, st.nextElem)

/-- Initial tooltip-layer state: empty map, no elements created. -/
def initTooltips : TooltipState :=
  { tooltips := [], nextElem := 0, created := 0 }

/-- Process a sequence of taps, each on the object with the given id. -/
def runTaps (st : TooltipState) : List Nat → TooltipState
  | [] => st
  | objId :: rest => runTaps (showTooltip st objId).1 rest

/-- Number of tooltip entries registered for a given object id. -/
def tipCount (m : List (Nat × Nat)) (k : Nat) : Nat :=
  (m.filter (fun p => p.1 == k)).length

/-- Sample note used in concrete witnesses. -/
def note0 : Note :=
  { id := 0, text := "Hello", x := 0, y := 0, z := -1,
    createdAt := "2024-01-01", visualHandle := 0 }

/-- Second sample note used in concrete witnesses. -/
def note1 : Note :=
  { id := 1, text := "Look", x := 1, y := 0, z := -2,
    createdAt := "2024-01-02", visualHandle := 1 }

/-- Sample world with two notes and a working store. -/
def w2 : World :=
  { notes := [note0, note1], nextId := 2, nextHandle := 2,
    createVisualCount := 2, store := [], now := "2024-02-03",
    writeFails := false }

/-- Sample world whose storage writes fail (quota exceeded). -/
def wQuota : World :=
  { w2 with writeFails := true }

/-- Sample page state with two floating objects. -/
def page2 : PageState :=
  { floatingObjects := [{ mesh := 0, info := "Info about text" },
                        { mesh := 1, info := "Info about image" }],
    durableStore := [] }

theorem mem_insertByDist {α : Type} (p q : α × Rat) (l : List (α × Rat)) :
    q ∈ insertByDist p l ↔ q = p ∨ q ∈ l := by
  induction l with
  | nil => simp [insertByDist]
  | cons r rs ih =>
    by_cases h : p.2 ≤ r.2
    · simp [insertByDist, h]
    · simp only [insertByDist, if_neg h, List.mem_cons, ih]
      tauto

theorem mem_sortByDist {α : Type} (q : α × Rat) (l : List (α × Rat)) :
    q ∈ sortByDist l ↔ q ∈ l := by
  induction l with
  | nil => simp [sortByDist]
  | cons r rs ih => simp [sortByDist, mem_insertByDist, ih]

theorem pairwise_insertByDist {α : Type} (p : α × Rat) (l : List (α × Rat))
    (h : l.Pairwise (fun a b => a.2 ≤ b.2)) :
    (insertByDist p l).Pairwise (fun a b => a.2 ≤ b.2) := by
  induction l with
  | nil => simp [insertByDist]
  | cons r rs ih =>
    rw [List.pairwise_cons] at h
    by_cases hle : p.2 ≤ r.2
    · rw [insertByDist, if_pos hle, List.pairwise_cons]
      refine ⟨?_, List.pairwise_cons.mpr h⟩
      intro q hq
      rcases List.mem_cons.mp hq with rfl | hq'
      · exact hle
      · exact le_trans hle (h.1 q hq')
    · rw [insertByDist, if_neg hle, List.pairwise_cons]
      refine ⟨?_, ih h.2⟩
      intro q hq
      rcases (mem_insertByDist p q rs).mp hq with rfl | hq'
      · exact le_of_lt (lt_of_not_le hle)
      · exact h.1 q hq'

theorem pairwise_sortByDist {α : Type} (l : List (α × Rat)) :
    (sortByDist l).Pairwise (fun a b => a.2 ≤ b.2) := by
  induction l with
  | nil => simp [sortByDist]
  | cons r rs ih => exact pairwise_insertByDist r (sortByDist rs) ih

theorem sortByDist_head_min {α : Type} (l : List (α × Rat)) (p : α × Rat)
    (rest : List (α × Rat)) (h : sortByDist l = p :: rest) :
    ∀ q ∈ sortByDist l, p.2 ≤ q.2 := by
  intro q hq
  rw [h] at hq
  rcases List.mem_cons.mp hq with rfl | hq'
  · exact le_refl _
  · have hp := pairwise_sortByDist l
    rw [h, List.pairwise_cons] at hp
    exact hp.1 q hq'

theorem decodeNote_encodeNote (r : NoteRec) :
    decodeNote (encodeNote r) = some r := by
  rfl

theorem decodeNoteList_encode (rs : List NoteRec) :
    decodeNoteList (rs.map encodeNote) = some rs := by
  induction rs with
  | nil => rfl
  | cons r rs ih =>
    simp [decodeNoteList, decodeNote_encodeNote, ih]

theorem decodeNotes_encodeNotes (rs : List NoteRec) :
    decodeNotes (encodeNotes rs) = some rs := by
  simp [decodeNotes, encodeNotes, decodeNoteList_encode]

theorem buildNotes_toRec (nid nh : Nat) (rs : List NoteRec) :
    (buildNotes nid nh rs).map noteToRec = rs := by
  induction rs generalizing nid nh with
  | nil => rfl
  | cons r rs ih => simp [buildNotes, noteToRec, ih]

theorem tipGet_none_count (m : List (Nat × Nat)) (k : Nat)
    (h : tipGet m k = none) : tipCount m k = 0 := by
  induction m with
  | nil => rfl
  | cons p rest ih =>
    obtain ⟨k', v⟩ := p
    rw [tipGet] at h
    by_cases hk : k' = k
    · simp [hk] at h
    · rw [if_neg hk] at h
      simpa [tipCount, hk] using ih h

theorem tipCount_append_one (m : List (Nat × Nat)) (j e k : Nat) :
    tipCount (m ++ [(j, e)]) k = tipCount m k + (if j = k then 1 else 0) := by
  by_cases hj : j = k <;> simp [tipCount, List.filter_append, hj]

theorem tipGet_append_of_none (m : List (Nat × Nat)) (k e : Nat)
    (h : tipGet m k = none) : tipGet (m ++ [(k, e)]) k = some e := by
  induction m with
  | nil => simp [tipGet]
  | cons p rest ih =>
    obtain ⟨k', v⟩ := p
    by_cases hk : k' = k
    · rw [tipGet, if_pos hk] at h
      simp at h
    · rw [tipGet, if_neg hk] at h
      rw [List.cons_append, tipGet, if_neg hk]
      exact ih h

theorem showTooltip_count_le (st : TooltipState) (objId : Nat)
    (hinv : ∀ k, tipCount st.tooltips k ≤ 1) :
    ∀ k, tipCount ((showTooltip st objId).1).tooltips k ≤ 1 := by
  intro k
  rw [showTooltip]
  cases h : tipGet st.tooltips objId with
  | some el => exact hinv k
  | none =>
    simp only [tipCount_append_one]
    by_cases hk : objId = k
    · rw [if_pos hk, ← hk, tipGet_none_count st.tooltips objId h]
    · rw [if_neg hk]
      simpa using hinv k

theorem runTaps_count_le (taps : List Nat) (st : TooltipState)
    (hinv : ∀ k, tipCount st.tooltips k ≤ 1) :
    ∀ k, tipCount ((runTaps st taps).tooltips) k ≤ 1 := by
  induction taps generalizing st with
  | nil => exact hinv
  | cons i rest ih =>
    rw [runTaps]
    exact ih (showTooltip st i).1 (showTooltip_count_le st i hinv)


/-- Claim C1: for every list of notes with non-empty text and finite
positions, persist followed by restore yields an in-memory set whose notes
have identical text, position, and date values, in the same order; only the
freshly reassigned ids (and renderer handles) may differ.  Finiteness of
the coordinates is inherent in the `Rat` embedding of JS numbers, and the
write is taken to succeed (write failure is the subject of C7). -/
theorem persist_restore_roundTrip (w : World)
    (hw : w.writeFails = false)
    (ht : ∀ n ∈ w.notes, n.text ≠ "") :
    ((restoreW (persistW w).1).2).map noteToRec = w.notes.map noteToRec := by
  simp [persistW, hw, restoreW, readStoredRecs, storeSet, storeGet,
        parseStoreVal, decodeNotes_encodeNotes, buildNotes_toRec]

/-- Witness for C1 at the two-note sample world. -/
theorem persist_restore_roundTrip_witness :
    (∀ n ∈ w2.notes, n.text ≠ "") ∧
    ((restoreW (persistW w2).1).2).map noteToRec = w2.notes.map noteToRec :=
  ⟨by decide, persist_restore_roundTrip w2 rfl (by decide)⟩

/-- Claim C5: restore on a missing key, an empty-string value, or malformed
JSON in the Persistent Store returns the empty note set; `restoreW` is a
total function, so no error ever reaches the caller. -/
theorem restore_empty_or_corrupt (w : World)
    (h : storeGet w.store arNotesKey = none
       ∨ storeGet w.store arNotesKey = some .emptyString
       ∨ storeGet w.store arNotesKey = some .badString) :
    (restoreW w).2 = [] ∧ (restoreW w).1.notes = [] := by
  rcases h with h | h | h <;>
    simp [restoreW, readStoredRecs, h, parseStoreVal, buildNotes]

/-- Witness for C5 at a store holding malformed JSON under the key. -/
theorem restore_empty_or_corrupt_witness :
    storeGet [(arNotesKey, StoreVal.badString)] arNotesKey =
      some StoreVal.badString ∧
    (restoreW { w2 with store := [(arNotesKey, StoreVal.badString)] }).2 = [] ∧
    (restoreW { w2 with store := [(arNotesKey, StoreVal.badString)] }).1.notes = [] := by
  refine ⟨rfl, ?_⟩
  exact restore_empty_or_corrupt _ (Or.inr (Or.inr rfl))

/-- Claim C8: persist writes, under the fixed key arNotes, the serialization
of the full current in-memory set as a JSON array of objects each holding
exactly the fields text, x, y, z, date — so in particular neither id nor
visualHandle is persisted. -/
theorem persist_writes_layout (w : World) (hw : w.writeFails = false) :
    storeGet (persistW w).1.store arNotesKey =
      some (.jsonVal (encodeNotes (w.notes.map noteToRec)))
    ∧ notesArrayShape (encodeNotes (w.notes.map noteToRec)) = true := by
  constructor
  · simp [persistW, hw, storeSet, storeGet]
  · simp only [notesArrayShape, encodeNotes, List.all_eq_true]
    intro j hj
    obtain ⟨r, hr, rfl⟩ := List.mem_map.mp hj
    rfl

/-- Witness for C8 at the two-note sample world. -/
theorem persist_writes_layout_witness :
    storeGet (persistW w2).1.store arNotesKey =
      some (.jsonVal (encodeNotes (w2.notes.map noteToRec)))
    ∧ notesArrayShape (encodeNotes (w2.notes.map noteToRec)) = true :=
  persist_writes_layout w2 rfl

/-- Claim C2: on a tap whose ray intersects nothing, with non-empty resolved
text (and a working store), pickOrCreate appends exactly one new note
carrying that text to the in-memory set, requests exactly one new visual
handle from the Renderer, writes the full updated set to the Persistent
Store, and returns the new note as Created. -/
theorem pickOrCreate_miss_creates (w : World) (dist : Nat → Option Rat)
    (nx ny : Rat) (t : String)
    (hmiss : intersectNotes dist w.notes = [])
    (ht : t ≠ "") (hw : w.writeFails = false) :
    ∃ n : Note, n.text = t
      ∧ (pickOrCreate w dist nx ny (some t)).2.1 = .Created n
      ∧ (pickOrCreate w dist nx ny (some t)).1.notes = w.notes ++ [n]
      ∧ (pickOrCreate w dist nx ny (some t)).1.notes.length
          = w.notes.length + 1
      ∧ (pickOrCreate w dist nx ny (some t)).1.createVisualCount
          = w.createVisualCount + 1
      ∧ storeGet (pickOrCreate w dist nx ny (some t)).1.store arNotesKey
          = some (.jsonVal (encodeNotes
              ((pickOrCreate w dist nx ny (some t)).1.notes.map noteToRec))) := by
  refine ⟨{ id := w.nextId, text := t, x := nx * spreadFactor,
            y := ny * spreadFactor, z := anchorDepth, createdAt := w.now,
            visualHandle := w.nextHandle }, rfl, ?_, ?_, ?_, ?_, ?_⟩ <;>
    simp [pickOrCreate, hmiss, ht, persistW, hw, storeSet, storeGet]

/-- Witness for C2: a miss on the two-note sample world with text World. -/
theorem pickOrCreate_miss_creates_witness :
    intersectNotes (fun _ => (none : Option Rat)) w2.notes = []
    ∧ ∃ n : Note, n.text = "World"
      ∧ (pickOrCreate w2 (fun _ => (none : Option Rat)) 1 0 (some "World")).2.1
          = .Created n
      ∧ (pickOrCreate w2 (fun _ => (none : Option Rat)) 1 0 (some "World")).1.notes
          = w2.notes ++ [n]
      ∧ (pickOrCreate w2 (fun _ => (none : Option Rat)) 1 0 (some "World")).1.notes.length
          = w2.notes.length + 1
      ∧ (pickOrCreate w2 (fun _ => (none : Option Rat)) 1 0 (some "World")).1.createVisualCount
          = w2.createVisualCount + 1
      ∧ storeGet (pickOrCreate w2 (fun _ => (none : Option Rat)) 1 0 (some "World")).1.store
            arNotesKey
          = some (.jsonVal (encodeNotes
              ((pickOrCreate w2 (fun _ => (none : Option Rat)) 1 0
                  (some "World")).1.notes.map noteToRec))) :=
  ⟨rfl, pickOrCreate_miss_creates w2 (fun _ => (none : Option Rat)) 1 0 "World"
      rfl (by decide) rfl⟩

/-- Claim C6: on a tap whose ray intersects nothing, with null or empty
resolved text, pickOrCreate returns Cancelled and leaves the in-memory set
size, the persisted state, and the Renderer visual-handle count unchanged. -/
theorem pickOrCreate_cancelled_noop (w : World) (dist : Nat → Option Rat)
    (nx ny : Rat) (t? : Option String)
    (hmiss : intersectNotes dist w.notes = [])
    (ht : t? = none ∨ t? = some "") :
    (pickOrCreate w dist nx ny t?).2.1 = .Cancelled
    ∧ (pickOrCreate w dist nx ny t?).1.notes.length = w.notes.length
    ∧ (pickOrCreate w dist nx ny t?).1.store = w.store
    ∧ (pickOrCreate w dist nx ny t?).1.createVisualCount
        = w.createVisualCount := by
  rcases ht with rfl | rfl <;> simp [pickOrCreate, hmiss]

/-- Witness for C6: a miss on the two-note sample world with null text. -/
theorem pickOrCreate_cancelled_noop_witness :
    intersectNotes (fun _ => (none : Option Rat)) w2.notes = []
    ∧ (pickOrCreate w2 (fun _ => (none : Option Rat)) 1 0 none).2.1 = .Cancelled
    ∧ (pickOrCreate w2 (fun _ => (none : Option Rat)) 1 0 none).1.notes.length
        = w2.notes.length
    ∧ (pickOrCreate w2 (fun _ => (none : Option Rat)) 1 0 none).1.store = w2.store
    ∧ (pickOrCreate w2 (fun _ => (none : Option Rat)) 1 0 none).1.createVisualCount
        = w2.createVisualCount :=
  ⟨rfl, pickOrCreate_cancelled_noop w2 (fun _ => (none : Option Rat)) 1 0 none
      rfl (Or.inl rfl)⟩

/-- Claim C7: when the persistence write fails (storage quota exceeded), the
creating pickOrCreate call reports the failure as a non-fatal warning, the
in-memory set is not rolled back — the new note remains appended — and only
the Persistent Store is left unwritten. -/
theorem persist_failure_keeps_note (w : World) (dist : Nat → Option Rat)
    (nx ny : Rat) (t : String)
    (hmiss : intersectNotes dist w.notes = [])
    (ht : t ≠ "") (hw : w.writeFails = true) :
    ∃ n : Note,
      (pickOrCreate w dist nx ny (some t)).2.2 = .warned
      ∧ (pickOrCreate w dist nx ny (some t)).2.1 = .Created n
      ∧ (pickOrCreate w dist nx ny (some t)).1.notes = w.notes ++ [n]
      ∧ (pickOrCreate w dist nx ny (some t)).1.store = w.store := by
  refine ⟨{ id := w.nextId, text := t, x := nx * spreadFactor,
            y := ny * spreadFactor, z := anchorDepth, createdAt := w.now,
            visualHandle := w.nextHandle }, ?_, ?_, ?_, ?_⟩ <;>
    simp [pickOrCreate, hmiss, ht, persistW, hw]

/-- Witness for C7: a miss with text World on the quota-exceeded world. -/
theorem persist_failure_keeps_note_witness :
    intersectNotes (fun _ => (none : Option Rat)) wQuota.notes = []
    ∧ wQuota.writeFails = true
    ∧ ∃ n : Note,
        (pickOrCreate wQuota (fun _ => (none : Option Rat)) 1 0 (some "World")).2.2
          = .warned
        ∧ (pickOrCreate wQuota (fun _ => (none : Option Rat)) 1 0 (some "World")).2.1
            = .Created n
        ∧ (pickOrCreate wQuota (fun _ => (none : Option Rat)) 1 0 (some "World")).1.notes
            = wQuota.notes ++ [n]
        ∧ (pickOrCreate wQuota (fun _ => (none : Option Rat)) 1 0 (some "World")).1.store
            = wQuota.store :=
  ⟨rfl, rfl, persist_failure_keeps_note wQuota (fun _ => (none : Option Rat)) 1 0
      "World" rfl (by decide) rfl⟩

/-- Claim C3: on a tap whose ray intersects two or more overlapping note
anchors, pickOrCreate returns the note whose intersection distance is
smallest among all intersected anchors, and pointwise-identical input
yields the identical result (determinism). -/
theorem pick_hit_nearest (w : World) (dist : Nat → Option Rat)
    (nx ny : Rat) (t? : Option String) (p : Note × Rat)
    (rest : List (Note × Rat))
    (hhit : intersectNotes dist w.notes = p :: rest)
    (htwo : 2 ≤ (intersectNotes dist w.notes).length) :
    (pickOrCreate w dist nx ny t?).2.1 = .Hit p.1
    ∧ (∀ q ∈ intersectNotes dist w.notes, p.2 ≤ q.2)
    ∧ (∀ dist2 : Nat → Option Rat, (∀ h, dist2 h = dist h) →
        pickOrCreate w dist2 nx ny t? = pickOrCreate w dist nx ny t?) := by
  refine ⟨?_, ?_, ?_⟩
  · obtain ⟨n, d⟩ := p
    simp [pickOrCreate, hhit]
  · intro q hq
    exact sortByDist_head_min _ p rest hhit q hq
  · intro dist2 hd
    rw [funext hd]

/-- Witness for C3: a tap hitting both sample notes, the second nearer. -/
theorem pick_hit_nearest_witness :
    intersectNotes (fun h => if h = 0 then some 2 else some 1) w2.notes
      = (note1, 1) :: [(note0, 2)]
    ∧ 2 ≤ (intersectNotes (fun h => if h = 0 then some 2 else some 1)
            w2.notes).length
    ∧ (pickOrCreate w2 (fun h => if h = 0 then some 2 else some 1)
        0 0 none).2.1 = .Hit note1
    ∧ (∀ q ∈ intersectNotes (fun h => if h = 0 then some 2 else some 1)
          w2.notes, (1 : Rat) ≤ q.2)
    ∧ (∀ dist2 : Nat → Option Rat,
        (∀ h, dist2 h = (fun h => if h = 0 then some 2 else some 1) h) →
        pickOrCreate w2 dist2 0 0 none
          = pickOrCreate w2 (fun h => if h = 0 then some 2 else some 1)
              0 0 none) :=
  ⟨by decide, by decide,
    pick_hit_nearest w2 (fun h => if h = 0 then some 2 else some 1) 0 0 none
      (note1, 1) [(note0, 2)] (by decide) (by decide)⟩

/-- Claim C4: on a tap whose ray hits a known note, the tap flow returns Hit
with that note, mutates nothing — in-memory set, persisted state, and
Renderer handle count are all the unchanged fields of the returned world —
and the only user-visible effect is the Presentation showing that note's
text. -/
theorem pick_hit_pure (w : World) (dist : Nat → Option Rat)
    (nx ny : Rat) (t? : Option String) (n : Note) (d : Rat)
    (rest : List (Note × Rat))
    (hhit : intersectNotes dist w.notes = (n, d) :: rest) :
    handleTap w dist nx ny t? = (w, .Hit n, .ok, [n.text]) := by
  simp [handleTap, pickOrCreate, hhit]

/-- Witness for C4: a tap hitting only the first sample note. -/
theorem pick_hit_pure_witness :
    intersectNotes (fun h => if h = 0 then some 1 else none) w2.notes
      = [(note0, 1)]
    ∧ handleTap w2 (fun h => if h = 0 then some 1 else none) 0 0 none
        = (w2, .Hit note0, .ok, [note0.text]) :=
  ⟨by decide,
    pick_hit_pure w2 (fun h => if h = 0 then some 1 else none) 0 0 none
      note0 1 [] (by decide)⟩

/-- Claim C9: the canvas click handler never changes the floating-object
list or the page's durable storage, whether the ray hits or misses; and a
tap whose ray intersects nothing returns the page state untouched with no
user-visible effect at all. -/
theorem onCanvasClick_no_mutation (st : PageState) (dist : Nat → Option Rat) :
    (onCanvasClick st dist).1.floatingObjects = st.floatingObjects
    ∧ (onCanvasClick st dist).1.durableStore = st.durableStore
    ∧ (st.floatingObjects.filterMap
        (fun o => Option.map (fun d => (o.mesh, d)) (dist o.mesh)) = [] →
        onCanvasClick st dist = (st, [])) := by
  have hstate : (onCanvasClick st dist).1 = st := by
    unfold onCanvasClick
    split
    · rfl
    · split <;> rfl
  refine ⟨by rw [hstate], by rw [hstate], ?_⟩
  intro h
  unfold onCanvasClick
  rw [h]
  rfl

/-- Witness for C9: a missing tap on the two-object sample page. -/
theorem onCanvasClick_no_mutation_witness :
    (onCanvasClick page2 (fun _ => (none : Option Rat))).1.floatingObjects
        = page2.floatingObjects
    ∧ (onCanvasClick page2 (fun _ => (none : Option Rat))).1.durableStore
        = page2.durableStore
    ∧ (page2.floatingObjects.filterMap
        (fun o => Option.map (fun d => (o.mesh, d))
          ((fun _ => (none : Option Rat)) o.mesh)) = [] →
        onCanvasClick page2 (fun _ => (none : Option Rat)) = (page2, [])) :=
  onCanvasClick_no_mutation page2 (fun _ => (none : Option Rat))

/-- Claim C10: showTooltip creates at most one tooltip DOM element per scene
object id.  Over any sequence of taps from the initial empty state, each id
ends with at most one registered tooltip; a tap on an id that already has a
registered element reuses it and changes nothing; and the first tap on an
id creates exactly one element and registers it under that id. -/
theorem showTooltip_at_most_one (taps : List Nat) (objId : Nat)
    (st₁ st₂ : TooltipState) (el : Nat)
    (h₁ : tipGet st₁.tooltips objId = some el)
    (h₂ : tipGet st₂.tooltips objId = none) :
    tipCount ((runTaps initTooltips taps).tooltips) objId ≤ 1
    ∧ showTooltip st₁ objId = (st₁, el)
    ∧ tipGet ((showTooltip st₂ objId).1).tooltips objId = some st₂.nextElem
    ∧ (showTooltip st₂ objId).1.created = st₂.created + 1 := by
  refine ⟨?_, ?_, ?_, ?_⟩
  · exact runTaps_count_le taps initTooltips
      (fun k => by simp [initTooltips, tipCount]) objId
  · unfold showTooltip
    rw [h₁]
  · unfold showTooltip
    rw [h₂]
    exact tipGet_append_of_none st₂.tooltips objId st₂.nextElem h₂
  · unfold showTooltip
    rw [h₂]

/-- Witness for C10: taps 5, 5, 7 from the initial state, plus concrete
reuse and first-creation states for id 5. -/
theorem showTooltip_at_most_one_witness :
    tipGet ({ tooltips := [(5, 0)], nextElem := 1, created := 1 }
      : TooltipState).tooltips 5 = some 0
    ∧ tipGet initTooltips.tooltips 5 = none
    ∧ tipCount ((runTaps initTooltips [5, 5, 7]).tooltips) 5 ≤ 1
    ∧ showTooltip { tooltips := [(5, 0)], nextElem := 1, created := 1 } 5
        = ({ tooltips := [(5, 0)], nextElem := 1, created := 1 }, 0)
    ∧ tipGet ((showTooltip initTooltips 5).1).tooltips 5
        = some initTooltips.nextElem
    ∧ (showTooltip initTooltips 5).1.created = initTooltips.created + 1 :=
  ⟨rfl, rfl,
    showTooltip_at_most_one [5, 5, 7] 5
      { tooltips := [(5, 0)], nextElem := 1, created := 1 } initTooltips 0
      rfl rfl⟩
